import Mathlib

/-!
Shallow embedding of the cofounder-matching backend's match/introduction
lifecycle and messaging gate: the handlers in
`backend/app/api/v1/matches.py`, `backend/app/api/v1/messages.py` and
`backend/app/api/v1/profiles.py`, over the `Match` and `Message` records of
`backend/app/models`.  Timestamps are naturals (seconds), uuid generation is
modelled by per-table counters, and each handler is a pure function from a
database state (plus the clock value `now`) to `Except` an error or a
response paired with the committed state.  A raised `HTTPException` aborts
the request before commit, so the error branch carries no state.
-/

/-- A users-table row, restricted to the columns the match/message handlers
read (`id`, `is_active`, `is_banned`). -/
structure UserRow where
  id : Nat
  is_active : Bool
  is_banned : Bool
deriving Repr, DecidableEq

/-- A matches-table row (`app/models/match.py`), restricted to the columns
the embedded handlers read or write.  The nullable per-dimension score
columns are never touched by these handlers and are omitted. -/
structure MatchRow where
  id : Nat
  user_id : Nat
  target_user_id : Nat
  match_score : Nat
  status : String
  intro_requested_at : Option Nat
  intro_accepted_at : Option Nat
  created_at : Nat
  updated_at : Nat
deriving Repr, DecidableEq

/-- A messages-table row (`app/models/message.py`).  `match_id` is an
`Option` because the invite handler constructs `Message` objects with
`match_id=None` before the owning match id is known. -/
structure MessageRow where
  id : Nat
  match_id : Option Nat
  sender_id : Nat
  recipient_id : Nat
  content : String
  message_type : String
  is_read : Bool
  read_at : Option Nat
  created_at : Nat
deriving Repr, DecidableEq

/-- The relational state touched by the embedded handlers, with counters
standing in for uuid4 primary-key generation. -/
structure DB where
  users : List UserRow
  matchRows : List MatchRow
  messages : List MessageRow
  nextMatchId : Nat
  nextMessageId : Nat
deriving Repr, DecidableEq

/-- One constructor per distinct `HTTPException` raise site reachable in the
embedded handlers (the malformed-uuid 400s cannot arise because identifiers
are typed here). -/
inductive ApiErr
  | cannotActOnSelf
  | profileNotFound
  | alreadyRequested
  | alreadyConnected
  | rateLimited
  | matchNotFound
  | forbidden
  | noIntroRequest
  | introAlreadyAccepted
  | invalidStatusValue
  | cannotChangeAfterIntro
  | notConnected
deriving Repr, DecidableEq

/-- HTTP status code of each error, as raised by the handlers. -/
def ApiErr.httpStatus : ApiErr → Nat
  | .cannotActOnSelf => 400
  | .profileNotFound => 404
  | .alreadyRequested => 400
  | .alreadyConnected => 400
  | .rateLimited => 429
  | .matchNotFound => 404
  | .forbidden => 403
  | .noIntroRequest => 400
  | .introAlreadyAccepted => 400
  | .invalidStatusValue => 400
  | .cannotChangeAfterIntro => 400
  | .notConnected => 400

/-- `db.query(User).filter(User.id == uid, User.is_active).first()` — note
the filter does not consult `is_banned`. -/
def findActiveUser (db : DB) (uid : Nat) : Option UserRow :=
  db.users.find? (fun u => u.id == uid && u.is_active)

/-- `db.query(Match).filter(Match.user_id == a, Match.target_user_id == b).first()` -/
def findMatchPair (db : DB) (a b : Nat) : Option MatchRow :=
  db.matchRows.find? (fun m => m.user_id == a && m.target_user_id == b)

/-- `db.query(Match).filter(Match.id == mid).first()` -/
def findMatchById (db : DB) (mid : Nat) : Option MatchRow :=
  db.matchRows.find? (fun m => m.id == mid)

/-- Seconds in `timedelta(weeks=1)`. -/
def oneWeek : Nat := 7 * 24 * 60 * 60

/-- Seconds in `timedelta(days=1)`. -/
def oneDay : Nat := 24 * 60 * 60

/-- Predicate for rows counted by the 20-per-week intro rate limit:
`Match.user_id == actor`, `intro_requested_at` non-null and at least
`now - oneWeek` (truncated subtraction matches the datetime comparison,
since every stored timestamp is nonnegative). -/
def isRecentIntro (actor now : Nat) (m : MatchRow) : Bool :=
  m.user_id == actor &&
    match m.intro_requested_at with
    | some t => decide (now - oneWeek ≤ t)
    | none => false

/-- The `recent_intros` count of `send_invite_to_profile` /
`request_introduction`. -/
def countRecentIntros (db : DB) (actor now : Nat) : Nat :=
  (db.matchRows.filter (isRecentIntro actor now)).length

/-- In-place ORM mutation: rewrite the row carrying the given primary key. -/
def updateMatch (db : DB) (mid : Nat) (f : MatchRow → MatchRow) : DB :=
  { db with matchRows := db.matchRows.map (fun m => if m.id == mid then f m else m) }

/-- `db.add(new_match)` followed by commit: the row is appended and the next
primary key advances. -/
def addMatch (db : DB) (m : MatchRow) : DB :=
  { db with matchRows := db.matchRows ++ [m], nextMatchId := db.nextMatchId + 1 }

/-- `db.add(message)` followed by commit. -/
def addMessage (db : DB) (m : MessageRow) : DB :=
  { db with messages := db.messages ++ [m], nextMessageId := db.nextMessageId + 1 }

/-- Response body of `send_invite_to_profile` (the static sentence in its
`message` field is dropped). -/
structure InviteResult where
  match_id : Nat
  invites_remaining : Nat
  auto_connected : Bool
deriving Repr, DecidableEq

/-- `max(0, 20 - recent_intros - 1)` — the `invites_remaining` field. -/
def invitesRemaining (recentIntros : Nat) : Nat :=
  max 0 (20 - recentIntros - 1)

/-- Mutation applied to the actor's existing row on the auto-connect path
(matches.py lines 104-109). -/
def connectOwnRow (now : Nat) (m : MatchRow) : MatchRow :=
  { m with status := "connected", intro_requested_at := some now,
           intro_accepted_at := some now, updated_at := now }

/-- Mutation applied to the reciprocal row on the auto-connect path
(matches.py lines 121-124): `intro_requested_at` is left as it was. -/
def connectMirrorRow (now : Nat) (m : MatchRow) : MatchRow :=
  { m with status := "connected", intro_accepted_at := some now,
           updated_at := now }

/-- Mutation applied to an existing row on the plain-intro path
(matches.py lines 152-156). -/
def introOwnRow (now : Nat) (m : MatchRow) : MatchRow :=
  { m with status := "intro_requested", intro_requested_at := some now,
           updated_at := now }

/-- Fresh actor row created on the auto-connect path (matches.py 111-119);
`created_at` comes from the server clock. -/
def newConnectedRow (mid actor target now : Nat) : MatchRow :=
  { id := mid, user_id := actor, target_user_id := target, match_score := 0,
    status := "connected", intro_requested_at := some now,
    intro_accepted_at := some now, created_at := now, updated_at := now }

/-- Fresh actor row created on the plain-intro path (matches.py 158-165). -/
def newIntroRow (mid actor target now : Nat) : MatchRow :=
  { id := mid, user_id := actor, target_user_id := target, match_score := 0,
    status := "intro_requested", intro_requested_at := some now,
    intro_accepted_at := none, created_at := now, updated_at := now }

/-- The `intro_request` Message persisted when the invite created a fresh
match row (matches.py 168-183: constructed with `match_id=None`, patched to
the new id after refresh, then added). -/
def introRequestMessage (msgId matchId actor target : Nat) (msgText : String)
    (now : Nat) : MessageRow :=
  { id := msgId, match_id := some matchId, sender_id := actor,
    recipient_id := target, content := msgText,
    message_type := "intro_request", is_read := false, read_at := none,
    created_at := now }

/-- Body of `send_invite_to_profile` from the reciprocal-match lookup
(matches.py line 80) to the response, with the earlier existing-row lookup
result passed in.  On both existing-row branches the source constructs the
intro `Message` with `match_id=match.id` but the trailing
`if not existing_match` guard means it is never `db.add()`-ed, so no
message row is persisted there. -/
def inviteCore (db : DB) (actor target : Nat) (msgText : String) (now : Nat)
    (existing : Option MatchRow) : Except ApiErr (InviteResult × DB) :=
  if 20 ≤ countRecentIntros db actor now then .error .rateLimited
  else
    match db.matchRows.find? (fun m =>
        m.user_id == target && m.target_user_id == actor &&
          m.intro_requested_at.isSome), existing with
    | some rm, some em =>
        .ok ({ match_id := em.id,
               invites_remaining := invitesRemaining (countRecentIntros db actor now),
               auto_connected := true },
             updateMatch (updateMatch db em.id (connectOwnRow now)) rm.id
               (connectMirrorRow now))
    | some rm, none =>
        .ok ({ match_id := db.nextMatchId,
               invites_remaining := invitesRemaining (countRecentIntros db actor now),
               auto_connected := true },
             addMessage
               (updateMatch
                 (addMatch db (newConnectedRow db.nextMatchId actor target now))
                 rm.id (connectMirrorRow now))
               (introRequestMessage db.nextMessageId
                 db.nextMatchId actor target msgText now))
    | none, some em =>
        .ok ({ match_id := em.id,
               invites_remaining := invitesRemaining (countRecentIntros db actor now),
               auto_connected := false },
             updateMatch db em.id (introOwnRow now))
    | none, none =>
        .ok ({ match_id := db.nextMatchId,
               invites_remaining := invitesRemaining (countRecentIntros db actor now),
               auto_connected := false },
             addMessage (addMatch db (newIntroRow db.nextMatchId actor target now))
               (introRequestMessage db.nextMessageId
                 db.nextMatchId actor target msgText now))

/-- `POST /matches/invite/{profile_id}` (`send_invite_to_profile`,
matches.py lines 25-190). -/
def sendInviteToProfile (db : DB) (actor target : Nat) (msgText : String)
    (now : Nat) : Except ApiErr (InviteResult × DB) :=
  if target == actor then .error .cannotActOnSelf
  else if (findActiveUser db target).isNone then .error .profileNotFound
  else
    match findMatchPair db actor target with
    | some em =>
        if em.intro_requested_at.isSome then .error .alreadyRequested
        else if em.intro_accepted_at.isSome then .error .alreadyConnected
        else inviteCore db actor target msgText now (some em)
    | none => inviteCore db actor target msgText now none

/-- Response body of `request_introduction`. -/
structure IntroResult where
  match_id : Nat
  intro_requested_at : Option Nat
deriving Repr, DecidableEq

/-- `POST /matches/{match_id}/intro` (`request_introduction`, matches.py
lines 358-438).  Unlike the invite handler, the intro `Message` here is
`db.add()`-ed unconditionally, and no reciprocal-row lookup happens. -/
def requestIntroduction (db : DB) (actor mid : Nat) (msgText : String)
    (now : Nat) : Except ApiErr (IntroResult × DB) :=
  match findMatchById db mid with
  | none => .error .matchNotFound
  | some m =>
      if m.user_id != actor then .error .forbidden
      else if m.intro_requested_at.isSome then .error .alreadyRequested
      else if m.intro_accepted_at.isSome then .error .alreadyConnected
      else if 20 ≤ countRecentIntros db actor now then .error .rateLimited
      else
        .ok ({ match_id := m.id, intro_requested_at := some now },
             addMessage (updateMatch db m.id (introOwnRow now))
               (introRequestMessage db.nextMessageId m.id actor
                 m.target_user_id msgText now))

/-- Response body of `respond_to_introduction`. -/
structure RespondResult where
  match_id : Nat
  accepted : Bool
  status : String
deriving Repr, DecidableEq

/-- Mutation applied on accept (matches.py 486-488). -/
def acceptRow (now : Nat) (m : MatchRow) : MatchRow :=
  { m with status := "connected", intro_accepted_at := some now,
           updated_at := now }

/-- Mutation applied on decline (matches.py 502-503): `intro_accepted_at`
stays as it was. -/
def declineRow (now : Nat) (m : MatchRow) : MatchRow :=
  { m with status := "dismissed", updated_at := now }

/-- The optional `intro_response` Message (matches.py 491-499 / 506-514). -/
def introResponseMessage (msgId matchId actor recipient : Nat)
    (txt : String) (now : Nat) : MessageRow :=
  { id := msgId, match_id := some matchId, sender_id := actor,
    recipient_id := recipient, content := txt,
    message_type := "intro_response", is_read := false, read_at := none,
    created_at := now }

/-- Optionally persist the accept/decline note. -/
def addOptionalResponse (db : DB) (matchId actor recipient : Nat)
    (respMsg : Option String) (now : Nat) : DB :=
  match respMsg with
  | some txt =>
      addMessage db
        (introResponseMessage db.nextMessageId matchId actor recipient txt now)
  | none => db

/-- `POST /matches/{match_id}/intro/respond` (`respond_to_introduction`,
matches.py lines 441-524).  The guards read only the two intro timestamps;
the `status` column is never consulted. -/
def respondToIntroduction (db : DB) (actor mid : Nat) (accept : Bool)
    (respMsg : Option String) (now : Nat) : Except ApiErr (RespondResult × DB) :=
  match findMatchById db mid with
  | none => .error .matchNotFound
  | some m =>
      if m.target_user_id != actor then .error .forbidden
      else if m.intro_requested_at.isNone then .error .noIntroRequest
      else if m.intro_accepted_at.isSome then .error .introAlreadyAccepted
      else if accept then
        .ok ({ match_id := m.id, accepted := true, status := "connected" },
             addOptionalResponse (updateMatch db m.id (acceptRow now))
               m.id actor m.user_id respMsg now)
      else
        .ok ({ match_id := m.id, accepted := false, status := "dismissed" },
             addOptionalResponse (updateMatch db m.id (declineRow now))
               m.id actor m.user_id respMsg now)

/-- The `allowed_statuses` list of `update_match_status`. -/
def allowedStatuses : List String := ["viewed", "saved", "dismissed"]

/-- Mutation applied by `update_match_status` (matches.py 572-573). -/
def setStatusRow (newStatus : String) (now : Nat) (m : MatchRow) : MatchRow :=
  { m with status := newStatus, updated_at := now }

/-- `PUT /matches/{match_id}/status` (`update_match_status`, matches.py
lines 527-577).  The allowed-status check precedes the row lookup. -/
def updateMatchStatus (db : DB) (actor mid : Nat) (newStatus : String)
    (now : Nat) : Except ApiErr (MatchRow × DB) :=
  if !(allowedStatuses.contains newStatus) then .error .invalidStatusValue
  else
    match findMatchById db mid with
    | none => .error .matchNotFound
    | some m =>
        if m.user_id != actor && m.target_user_id != actor then
          .error .forbidden
        else if m.intro_requested_at.isSome &&
            (["saved", "dismissed"].contains newStatus) then
          .error .cannotChangeAfterIntro
        else
          .ok (setStatusRow newStatus now m,
               updateMatch db m.id (setStatusRow newStatus now))

/-- Predicate for rows counted by the 50-per-day message rate limit
(messages.py 220-225): sender matches, type is exactly "message" (intro
messages excluded), created within the trailing day. -/
def isRecentPlainMessage (sender now : Nat) (ms : MessageRow) : Bool :=
  ms.sender_id == sender && ms.message_type == "message" &&
    decide (now - oneDay ≤ ms.created_at)

/-- The `recent_messages` count of `send_message`. -/
def countRecentPlainMessages (db : DB) (sender now : Nat) : Nat :=
  (db.messages.filter (isRecentPlainMessage sender now)).length

/-- The chat Message persisted by `send_message` (messages.py 234-240). -/
def plainMessage (msgId matchId sender recipient : Nat) (content : String)
    (now : Nat) : MessageRow :=
  { id := msgId, match_id := some matchId, sender_id := sender,
    recipient_id := recipient, content := content,
    message_type := "message", is_read := false, read_at := none,
    created_at := now }

/-- `POST /messages` (`send_message`, messages.py lines 184-263). -/
def sendMessage (db : DB) (actor mid : Nat) (content : String) (now : Nat) :
    Except ApiErr (MessageRow × DB) :=
  match findMatchById db mid with
  | none => .error .matchNotFound
  | some m =>
      if m.user_id != actor && m.target_user_id != actor then
        .error .forbidden
      else if m.status != "connected" then .error .notConnected
      else if 50 ≤ countRecentPlainMessages db actor now then
        .error .rateLimited
      else
        .ok (plainMessage db.nextMessageId mid actor
               (if m.user_id == actor then m.target_user_id else m.user_id)
               content now,
             updateMatch
               (addMessage db
                 (plainMessage db.nextMessageId mid actor
                   (if m.user_id == actor then m.target_user_id else m.user_id)
                   content now))
               m.id (fun r => { r with updated_at := now }))

/-- Stable insertion into a list ascending in `created_at`. -/
def insertByCreated (ms : MessageRow) : List MessageRow → List MessageRow
  | [] => [ms]
  | x :: xs =>
      if ms.created_at < x.created_at then ms :: x :: xs
      else x :: insertByCreated ms xs

/-- Sort messages ascending by `created_at` (the
`order_by(Message.created_at.asc())` of `get_messages`). -/
def sortByCreated : List MessageRow → List MessageRow
  | [] => []
  | x :: xs => insertByCreated x (sortByCreated xs)

/-- `GET /messages/{match_id}` (`get_messages`, messages.py lines 119-181):
participant and connected-status guards, then the thread ascending by
`created_at`, paginated, keeping only messages whose sender row exists. -/
def getMessages (db : DB) (actor mid : Nat) (skip limit : Nat) :
    Except ApiErr (List MessageRow) :=
  match findMatchById db mid with
  | none => .error .matchNotFound
  | some m =>
      if m.user_id != actor && m.target_user_id != actor then
        .error .forbidden
      else if m.status != "connected" then .error .notConnected
      else
        .ok ((((sortByCreated
                 (db.messages.filter (fun ms => ms.match_id == some mid))).drop
                   skip).take limit).filter
               (fun ms => (db.users.find? (fun u => u.id == ms.sender_id)).isSome))

/-- Predicate for the rows `mark_all_messages_read` flips: in the thread,
addressed to the actor, still unread (messages.py 340-344). -/
def isUnreadFor (actor mid : Nat) (ms : MessageRow) : Bool :=
  ms.match_id == some mid && ms.recipient_id == actor && !ms.is_read

/-- `PUT /messages/match/{match_id}/read-all` (`mark_all_messages_read`,
messages.py lines 309-356): participant guard only — there is no
connected-status check here — then a bulk flip with one shared timestamp.
Returns the number of rows flipped. -/
def markAllMessagesRead (db : DB) (actor mid : Nat) (now : Nat) :
    Except ApiErr (Nat × DB) :=
  match findMatchById db mid with
  | none => .error .matchNotFound
  | some m =>
      if m.user_id != actor && m.target_user_id != actor then
        .error .forbidden
      else
        .ok ((db.messages.filter (isUnreadFor actor mid)).length,
             { db with messages := db.messages.map (fun ms =>
                 if isUnreadFor actor mid ms then
                   { ms with is_read := true, read_at := some now }
                 else ms) })

/-- Fresh row created by `save_profile` (profiles.py 133-139); `status` is
"saved" and the intro timestamps are untouched defaults. -/
def newSavedRow (mid actor target now : Nat) (st : String) : MatchRow :=
  { id := mid, user_id := actor, target_user_id := target, match_score := 0,
    status := st, intro_requested_at := none, intro_accepted_at := none,
    created_at := now, updated_at := now }

/-- `POST /profiles/{profile_id}/save` (`save_profile`, profiles.py lines
102-142) and `POST /profiles/{profile_id}/skip` (`skip_profile`, lines
145-185), which differ only in the stored status string. -/
def saveOrSkipProfile (db : DB) (actor target : Nat) (st : String)
    (now : Nat) : Except ApiErr (Nat × DB) :=
  if target == actor then .error .cannotActOnSelf
  else if (findActiveUser db target).isNone then .error .profileNotFound
  else
    match findMatchPair db actor target with
    | some em =>
        .ok (em.id, updateMatch db em.id (setStatusRow st now))
    | none =>
        .ok (db.nextMatchId,
             addMatch db (newSavedRow db.nextMatchId actor target now st))

/-- The Match-mutating operations of the API surface, for stating
invariants over arbitrary operation sequences. -/
inductive Op
  | invite (actor target : Nat) (msgText : String)
  | saveProfile (actor target : Nat)
  | skipProfile (actor target : Nat)
  | requestIntro (actor mid : Nat) (msgText : String)
  | respond (actor mid : Nat) (accept : Bool) (respMsg : Option String)
  | setStatus (actor mid : Nat) (newStatus : String)
  | sendMsg (actor mid : Nat) (content : String)
  | markAllRead (actor mid : Nat)
deriving Repr, DecidableEq

/-- Run one operation at clock value `now`; a failed request leaves the
state untouched (the handler raises before commit). -/
def applyOp (db : DB) (op : Op) (now : Nat) : DB :=
  match op with
  | .invite a b msg =>
      match sendInviteToProfile db a b msg now with
      | .ok (_, db2) => db2
      | .error _ => db
  | .saveProfile a b =>
      match saveOrSkipProfile db a b "saved" now with
      | .ok (_, db2) => db2
      | .error _ => db
  | .skipProfile a b =>
      match saveOrSkipProfile db a b "dismissed" now with
      | .ok (_, db2) => db2
      | .error _ => db
  | .requestIntro a mid msg =>
      match requestIntroduction db a mid msg now with
      | .ok (_, db2) => db2
      | .error _ => db
  | .respond a mid acc rmsg =>
      match respondToIntroduction db a mid acc rmsg now with
      | .ok (_, db2) => db2
      | .error _ => db
  | .setStatus a mid st =>
      match updateMatchStatus db a mid st now with
      | .ok (_, db2) => db2
      | .error _ => db
  | .sendMsg a mid c =>
      match sendMessage db a mid c now with
      | .ok (_, db2) => db2
      | .error _ => db
  | .markAllRead a mid =>
      match markAllMessagesRead db a mid now with
      | .ok (_, db2) => db2
      | .error _ => db

/-- Run a sequence of timestamped operations. -/
def runOps (db : DB) : List (Op × Nat) → DB
  | [] => db
  | (op, now) :: rest => runOps (applyOp db op now) rest

/-- Two match rows address the same ordered user pair. -/
def samePair (m1 m2 : MatchRow) : Prop :=
  m1.user_id = m2.user_id ∧ m1.target_user_id = m2.target_user_id

instance : DecidableRel samePair := fun m1 m2 => by
  unfold samePair; infer_instance

/-- The spec invariant: at most one Match row per ordered
`(user_id, target_user_id)` pair. -/
def pairUnique (db : DB) : Prop :=
  db.matchRows.Pairwise (fun m1 m2 => ¬ samePair m1 m2)

instance (db : DB) : Decidable (pairUnique db) := by
  unfold pairUnique; infer_instance

deriving instance DecidableEq for Except

/-- Match rows carry pairwise-distinct primary keys. -/
def idUnique (db : DB) : Prop :=
  db.matchRows.Pairwise (fun m1 m2 => m1.id ≠ m2.id)

instance (db : DB) : Decidable (idUnique db) := by
  unfold idUnique; infer_instance

/-- Response part of a handler outcome, `none` on a raised exception. -/
def resultOf {α : Type} : Except ApiErr (α × DB) → Option α
  | .ok (r, _) => some r
  | .error _ => none

/-- Committed state of a handler outcome, `none` on a raised exception. -/
def commitOf {α : Type} : Except ApiErr (α × DB) → Option DB
  | .ok (_, d) => some d
  | .error _ => none

/-- The raised error of a handler outcome, `none` on success. -/
def errorOf {α : Type} : Except ApiErr α → Option ApiErr
  | .ok _ => none
  | .error e => some e

/-- `find?` commutes with mapping a function that does not disturb the
predicate. -/
theorem find?_map_invariant {α : Type} {p : α → Bool} {g : α → α}
    (hg : ∀ x, p (g x) = p x) (l : List α) :
    (l.map g).find? p = (l.find? p).map g := by
  rw [List.find?_map]
  have hpg : p ∘ g = p := funext hg
  rw [hpg]

/- Concrete fixtures used by the counterexample and witness theorems. -/

/-- An active, unbanned user with id 1. -/
def userA : UserRow := ⟨1, true, false⟩

/-- An active, unbanned user with id 2. -/
def userB : UserRow := ⟨2, true, false⟩

/-- An active but banned user with id 2. -/
def userBBanned : UserRow := ⟨2, true, true⟩

/-- A saved (1,2) match row with no intro activity. -/
def savedAB : MatchRow := ⟨11, 1, 2, 0, "saved", none, none, 3, 3⟩

/-- A (2,1) match row whose intro was requested at time 5. -/
def introBA : MatchRow := ⟨10, 2, 1, 0, "intro_requested", some 5, none, 5, 5⟩

/-- A (1,2) match row whose intro was requested at time 5. -/
def introAB20 : MatchRow := ⟨20, 1, 2, 0, "intro_requested", some 5, none, 5, 5⟩

/-- State with a reciprocal intro from user 2 and a saved row from user 1. -/
def dbReciprocalSaved : DB := ⟨[userA, userB], [introBA, savedAB], [], 12, 100⟩

/-- State with only user 1's saved row. -/
def dbSavedOnly : DB := ⟨[userA, userB], [savedAB], [], 12, 100⟩

/-- State with two users and no matches. -/
def dbFresh : DB := ⟨[userA, userB], [], [], 12, 100⟩

/-- State whose only invitable profile is active but banned. -/
def dbBannedTarget : DB := ⟨[userA, userBBanned], [], [], 12, 100⟩

/-- State with one pending (1,2) introduction. -/
def dbIntroPending : DB := ⟨[userA, userB], [introAB20], [], 21, 100⟩

/-- The (1,2) row after user 2 declined at time 50. -/
def dismissedAB20 : MatchRow := ⟨20, 1, 2, 0, "dismissed", some 5, none, 5, 50⟩

/-- State after the decline at time 50. -/
def dbAfterDecline : DB := ⟨[userA, userB], [dismissedAB20], [], 21, 100⟩

/-- An unread `intro_request` message in thread 20 addressed to user 2. -/
def unreadIntroMsg : MessageRow := ⟨50, some 20, 1, 2, "x", "intro_request", false, none, 6⟩

/-- State with a non-connected match carrying one unread message. -/
def dbThreadNotConnected : DB := ⟨[userA, userB], [introAB20], [unreadIntroMsg], 21, 100⟩

/-- C1: with a reciprocal `(2,1)` row whose `intro_requested_at` is set, a
successful `propose/invite(1,2,...)` over a pre-existing saved `(1,2)` row
does connect both rows, stamps both `intro_accepted_at`, and reports
`auto_connected=true` — but it persists zero Messages, not the one Message
the claim requires: on the existing-row path the handler builds the intro
`Message` and never adds it to the session. -/
theorem c1_reciprocal_invite_message_dropped :
    introBA.intro_requested_at = some 5 ∧
    resultOf (sendInviteToProfile dbReciprocalSaved 1 2 "hi" 100) =
      some { match_id := 11, invites_remaining := 19, auto_connected := true } ∧
    ((commitOf (sendInviteToProfile dbReciprocalSaved 1 2 "hi" 100)).bind
      (fun d => findMatchPair d 1 2)).map MatchRow.status = some "connected" ∧
    ((commitOf (sendInviteToProfile dbReciprocalSaved 1 2 "hi" 100)).bind
      (fun d => findMatchPair d 2 1)).map MatchRow.status = some "connected" ∧
    (((commitOf (sendInviteToProfile dbReciprocalSaved 1 2 "hi" 100)).bind
      (fun d => findMatchPair d 1 2)).bind MatchRow.intro_accepted_at) = some 100 ∧
    (((commitOf (sendInviteToProfile dbReciprocalSaved 1 2 "hi" 100)).bind
      (fun d => findMatchPair d 2 1)).bind MatchRow.intro_accepted_at) = some 100 ∧
    (commitOf (sendInviteToProfile dbReciprocalSaved 1 2 "hi" 100)).map
      DB.messages = some [] := by
  decide

/-- C2: a successful `propose/invite` persists the `intro_request` Message
only when no prior `(actor,target)` row existed.  Over the pre-existing
saved row the call succeeds with `auto_connected=false` yet persists no
Message at all; from a fresh state the same call persists exactly the one
expected Message. -/
theorem c2_invite_message_only_on_fresh_row :
    resultOf (sendInviteToProfile dbSavedOnly 1 2 "hello" 100) =
      some { match_id := 11, invites_remaining := 19, auto_connected := false } ∧
    (commitOf (sendInviteToProfile dbSavedOnly 1 2 "hello" 100)).map
      DB.messages = some [] ∧
    (commitOf (sendInviteToProfile dbFresh 1 2 "hello" 100)).map
      DB.messages = some [introRequestMessage 100 12 1 2 "hello" 100] := by
  decide

/-- C4 counterexample: the target-user filter of `send_invite_to_profile`
checks only `is_active`, never `is_banned`, so inviting an active banned
user succeeds instead of failing NotFound as the claim requires. -/
theorem c4_banned_target_invite_succeeds :
    userBBanned.is_banned = true ∧ userBBanned.is_active = true ∧
    resultOf (sendInviteToProfile dbBannedTarget 1 2 "hi" 100) =
      some { match_id := 12, invites_remaining := 19, auto_connected := false } := by
  decide

/-- C7 counterexample: `respond_to_introduction` never reads the `status`
column; after a decline the row sits at status `dismissed` with
`intro_requested_at` still set and `intro_accepted_at` unset, and a second
respond(accept) by the recipient succeeds from that non-`intro_requested`
status, moving `dismissed` to `connected`. -/
theorem c7_respond_succeeds_from_dismissed :
    resultOf (respondToIntroduction dbIntroPending 2 20 false none 50) =
      some { match_id := 20, accepted := false, status := "dismissed" } ∧
    commitOf (respondToIntroduction dbIntroPending 2 20 false none 50) =
      some dbAfterDecline ∧
    (findMatchById dbAfterDecline 20).map MatchRow.status = some "dismissed" ∧
    resultOf (respondToIntroduction dbAfterDecline 2 20 true none 60) =
      some { match_id := 20, accepted := true, status := "connected" } ∧
    ((commitOf (respondToIntroduction dbAfterDecline 2 20 true none 60)).bind
      (fun d => findMatchById d 20)).map MatchRow.status = some "connected" := by
  decide

/-- C10 counterexample: `mark_all_messages_read` does not enforce the same
authorization as `get_messages` — on a non-connected match where
`get_messages` fails InvalidState, `mark_all_messages_read` by a
participant succeeds and flips the unread message. -/
theorem c10_mark_all_read_skips_connected_check :
    (findMatchById dbThreadNotConnected 20).map MatchRow.status =
      some "intro_requested" ∧
    errorOf (getMessages dbThreadNotConnected 2 20 0 50) = some .notConnected ∧
    resultOf (markAllMessagesRead dbThreadNotConnected 2 20 70) = some 1 ∧
    (commitOf (markAllMessagesRead dbThreadNotConnected 2 20 70)).map
      DB.messages =
      some [⟨50, some 20, 1, 2, "x", "intro_request", true, some 70, 6⟩] := by
  decide

/-- C8: `update_status` with a status outside viewed/saved/dismissed fails
InvalidInput before anything else; once `intro_requested_at` is non-null, a
valid participant's update to saved or dismissed fails InvalidState, while
an update to viewed still succeeds. -/
theorem c8_update_status_guards (db : DB) (a mid : Nat) (s : String) (now : Nat) :
    (allowedStatuses.contains s = false →
      updateMatchStatus db a mid s now = .error .invalidStatusValue) ∧
    (∀ m, findMatchById db mid = some m →
      (m.user_id = a ∨ m.target_user_id = a) →
      m.intro_requested_at.isSome = true →
      (s = "saved" ∨ s = "dismissed") →
      updateMatchStatus db a mid s now = .error .cannotChangeAfterIntro) ∧
    (∀ m, findMatchById db mid = some m →
      (m.user_id = a ∨ m.target_user_id = a) →
      updateMatchStatus db a mid "viewed" now =
        .ok (setStatusRow "viewed" now m,
             updateMatch db m.id (setStatusRow "viewed" now))) := by
  refine ⟨?_, ?_, ?_⟩
  · intro h
    unfold updateMatchStatus
    rw [h]
    rfl
  · intro m hm hpart hintro hs
    have hcontains : allowedStatuses.contains s = true := by
      rcases hs with h | h <;> subst h <;> rfl
    have hsd : (["saved", "dismissed"].contains s) = true := by
      rcases hs with h | h <;> subst h <;> rfl
    have hp : (m.user_id != a && m.target_user_id != a) = false := by
      rcases hpart with h | h <;> simp [h]
    unfold updateMatchStatus
    rw [hcontains, hm]
    simp only [hp, hintro, hsd]
    simp
  · intro m hm hpart
    have hp : (m.user_id != a && m.target_user_id != a) = false := by
      rcases hpart with h | h <;> simp [h]
    unfold updateMatchStatus
    rw [hm]
    simp [hp]
    decide

/-- C8 witness: at a concrete state the three guard behaviors are
exhibited: unknown status is InvalidInput, saved-after-intro is
InvalidState, viewed-after-intro succeeds. -/
theorem c8_update_status_guards_witness :
    updateMatchStatus dbIntroPending 2 20 "pending" 50 =
      .error .invalidStatusValue ∧
    updateMatchStatus dbIntroPending 2 20 "saved" 50 =
      .error .cannotChangeAfterIntro ∧
    updateMatchStatus dbIntroPending 2 20 "viewed" 50 =
      .ok (setStatusRow "viewed" 50 introAB20,
           updateMatch dbIntroPending 20 (setStatusRow "viewed" 50)) := by
  refine ⟨?_, ?_, ?_⟩
  · exact (c8_update_status_guards dbIntroPending 2 20 "pending" 50).1 (by decide)
  · exact (c8_update_status_guards dbIntroPending 2 20 "saved" 50).2.1 introAB20
      (by decide) (by decide) (by decide) (Or.inl rfl)
  · exact (c8_update_status_guards dbIntroPending 2 20 "viewed" 50).2.2 introAB20
      (by decide) (by decide)

/-- C9: `send_message` fails InvalidState on any match that is not
`connected`, for either participant; on a connected match it fails
RateLimited once the sender has 50 messages of type "message" in the
trailing 24 hours, and messages of any other type (`intro_request`,
`intro_response`) never enter that count. -/
theorem c9_send_message_gate (db : DB) (a mid : Nat) (content : String) (now : Nat) :
    (∀ m, findMatchById db mid = some m →
      (m.user_id = a ∨ m.target_user_id = a) →
      m.status ≠ "connected" →
      sendMessage db a mid content now = .error .notConnected) ∧
    (∀ m, findMatchById db mid = some m →
      (m.user_id = a ∨ m.target_user_id = a) →
      m.status = "connected" →
      50 ≤ countRecentPlainMessages db a now →
      sendMessage db a mid content now = .error .rateLimited) ∧
    (∀ ms : MessageRow, ms.message_type ≠ "message" →
      countRecentPlainMessages { db with messages := ms :: db.messages } a now =
        countRecentPlainMessages db a now) := by
  refine ⟨?_, ?_, ?_⟩
  · intro m hm hpart hstatus
    have hp : (m.user_id != a && m.target_user_id != a) = false := by
      rcases hpart with h | h <;> simp [h]
    unfold sendMessage
    rw [hm]
    simp [hp, hstatus]
  · intro m hm hpart hstatus hrate
    have hp : (m.user_id != a && m.target_user_id != a) = false := by
      rcases hpart with h | h <;> simp [h]
    unfold sendMessage
    rw [hm]
    simp [hp, hstatus, hrate]
  · intro ms hty
    have hbeq : (ms.message_type == "message") = false :=
      beq_eq_false_iff_ne.mpr hty
    unfold countRecentPlainMessages
    simp [List.filter_cons, isRecentPlainMessage, hbeq]

/-- A connected (1,2) match row. -/
def connectedAB : MatchRow := ⟨30, 1, 2, 0, "connected", some 5, some 6, 5, 6⟩

/-- A plain chat message from user 1 sent at time 90. -/
def spamMsg : MessageRow := ⟨60, some 30, 1, 2, "spam", "message", false, none, 90⟩

/-- State where user 1 already sent 50 chat messages inside the window. -/
def dbSpam : DB := ⟨[userA, userB], [connectedAB], List.replicate 50 spamMsg, 31, 200⟩

/-- C9 witness: messaging fails InvalidState on a non-connected match for a
participant, the 51st same-day message is RateLimited, and an intro-typed
message does not change the rate count. -/
theorem c9_send_message_gate_witness :
    sendMessage dbIntroPending 1 20 "yo" 50 = .error .notConnected ∧
    sendMessage dbSpam 1 30 "hi" 100 = .error .rateLimited ∧
    countRecentPlainMessages
      { dbSpam with messages := unreadIntroMsg :: dbSpam.messages } 1 100 =
      countRecentPlainMessages dbSpam 1 100 := by
  refine ⟨?_, ?_, ?_⟩
  · exact (c9_send_message_gate dbIntroPending 1 20 "yo" 50).1 introAB20
      (by decide) (by decide) (by decide)
  · exact (c9_send_message_gate dbSpam 1 30 "hi" 100).2.1 connectedAB
      (by decide) (by decide) (by decide) (by decide)
  · exact (c9_send_message_gate dbSpam 1 30 "hi" 100).2.2 unreadIntroMsg
      (by decide)

/-- C10 amended: `mark_all_read` requires that the match exists and the
actor is a participant (Forbidden / NotFound otherwise) but — unlike
`get_messages` — performs no connected-status check; on success it flips
exactly the unread messages addressed to the actor in that thread, all with
the one shared timestamp `now`, leaving every other message unchanged. -/
theorem c10_mark_all_read_amended (db : DB) (a mid now : Nat) :
    (findMatchById db mid = none →
      markAllMessagesRead db a mid now = .error .matchNotFound) ∧
    (∀ m, findMatchById db mid = some m →
      m.user_id ≠ a → m.target_user_id ≠ a →
      markAllMessagesRead db a mid now = .error .forbidden) ∧
    (∀ m, findMatchById db mid = some m →
      (m.user_id = a ∨ m.target_user_id = a) →
      markAllMessagesRead db a mid now =
        .ok ((db.messages.filter (isUnreadFor a mid)).length,
             { db with messages := db.messages.map (fun ms =>
                 if isUnreadFor a mid ms then
                   { ms with is_read := true, read_at := some now }
                 else ms) })) := by
  refine ⟨?_, ?_, ?_⟩
  · intro hm
    unfold markAllMessagesRead
    rw [hm]
  · intro m hm hu ht
    unfold markAllMessagesRead
    rw [hm]
    simp [hu, ht]
  · intro m hm hpart
    have hp : (m.user_id != a && m.target_user_id != a) = false := by
      rcases hpart with h | h <;> simp [h]
    unfold markAllMessagesRead
    rw [hm]
    simp [hp]

/-- C10 amended witness: the participant's bulk flip succeeds on a
non-connected match, flipping its one unread message at timestamp 70. -/
theorem c10_mark_all_read_amended_witness :
    markAllMessagesRead dbThreadNotConnected 2 20 70 =
      .ok ((dbThreadNotConnected.messages.filter (isUnreadFor 2 20)).length,
           { dbThreadNotConnected with
               messages := dbThreadNotConnected.messages.map (fun ms =>
                 if isUnreadFor 2 20 ms then
                   { ms with is_read := true, read_at := some 70 }
                 else ms) }) :=
  (c10_mark_all_read_amended dbThreadNotConnected 2 20 70).2.2 introAB20
    (by decide) (Or.inr rfl)

/-- C4 amended: the invite target filter requires existence and
`is_active` only — a successful invite implies the target is an active
user distinct from the actor, a self-invite is InvalidInput, and a target
with no active row is NotFound — but `is_banned` is never consulted. -/
theorem c4_invite_target_guard_amended (db : DB) (a b : Nat) (msg : String)
    (now : Nat) :
    (∀ r db2, sendInviteToProfile db a b msg now = .ok (r, db2) →
      b ≠ a ∧ ∃ u ∈ db.users, u.id = b ∧ u.is_active = true) ∧
    (b = a → sendInviteToProfile db a b msg now = .error .cannotActOnSelf) ∧
    ((∀ u ∈ db.users, (u.id == b && u.is_active) = false) → b ≠ a →
      sendInviteToProfile db a b msg now = .error .profileNotFound) := by
  refine ⟨?_, ?_, ?_⟩
  · intro r db2 h
    unfold sendInviteToProfile at h
    by_cases hba : (b == a) = true
    · simp [hba] at h
    · refine ⟨fun hc => hba (beq_iff_eq.mpr hc), ?_⟩
      rw [if_neg (by simp [hba])] at h
      by_cases hfa : (findActiveUser db b).isNone
      · simp [hfa] at h
      · have hsome : (findActiveUser db b).isSome := by
          cases hopt : findActiveUser db b with
          | none => rw [hopt] at hfa; simp at hfa
          | some u => simp
        cases hopt : findActiveUser db b with
        | none => rw [hopt] at hsome; simp at hsome
        | some u =>
            have hpu := List.find?_some hopt
            have hmem := List.mem_of_find?_eq_some hopt
            simp only [Bool.and_eq_true, beq_iff_eq] at hpu
            exact ⟨u, hmem, hpu.1, hpu.2⟩
  · intro hba
    subst hba
    unfold sendInviteToProfile
    simp
  · intro hnone hba
    have hfa : findActiveUser db b = none :=
      List.find?_eq_none.mpr (fun u hu => by simp [hnone u hu])
    unfold sendInviteToProfile
    rw [if_neg (by simp [hba]), hfa]
    rfl

/-- The committed state of a fresh invite from `dbFresh`. -/
def dbFreshAfter : DB :=
  ⟨[userA, userB], [newIntroRow 12 1 2 100],
   [introRequestMessage 100 12 1 2 "hi" 100], 13, 101⟩

/-- C4 amended witness: a successful invite yields an active target; a
self-invite and an unknown target fail as stated. -/
theorem c4_invite_target_guard_amended_witness :
    ((2 : Nat) ≠ 1 ∧ ∃ u ∈ dbFresh.users, u.id = 2 ∧ u.is_active = true) ∧
    sendInviteToProfile dbFresh 1 1 "hi" 100 = .error .cannotActOnSelf ∧
    sendInviteToProfile dbFresh 1 99 "hi" 100 = .error .profileNotFound := by
  refine ⟨?_, ?_, ?_⟩
  · exact (c4_invite_target_guard_amended dbFresh 1 2 "hi" 100).1
      { match_id := 12, invites_remaining := 19, auto_connected := false }
      dbFreshAfter (by decide)
  · exact (c4_invite_target_guard_amended dbFresh 1 1 "hi" 100).2.1 rfl
  · exact (c4_invite_target_guard_amended dbFresh 1 99 "hi" 100).2.2
      (by decide) (by decide)

/-- The rate-limit guard is the first check inside `inviteCore`. -/
theorem inviteCore_rateLimited (db : DB) (actor target : Nat) (msg : String)
    (now : Nat) (existing : Option MatchRow)
    (h : 20 ≤ countRecentIntros db actor now) :
    inviteCore db actor target msg now existing = .error .rateLimited := by
  unfold inviteCore
  rw [if_pos h]

/-- C5: with the earlier guards passing, both `propose/invite` and
`request_introduction` fail RateLimited exactly when the actor already has
20 rows with `intro_requested_at` inside the trailing week, committing no
mutation; and a row whose `intro_requested_at` is older than one week
never enters the count. -/
theorem c5_intro_rate_limit (db : DB) (a b mid : Nat) (msg : String) (now : Nat) :
    ((b == a) = false →
      (findActiveUser db b).isNone = false →
      (∀ em, findMatchPair db a b = some em →
        em.intro_requested_at = none ∧ em.intro_accepted_at = none) →
      20 ≤ countRecentIntros db a now →
      sendInviteToProfile db a b msg now = .error .rateLimited ∧
      applyOp db (.invite a b msg) now = db) ∧
    (∀ m, findMatchById db mid = some m → m.user_id = a →
      m.intro_requested_at = none → m.intro_accepted_at = none →
      20 ≤ countRecentIntros db a now →
      requestIntroduction db a mid msg now = .error .rateLimited ∧
      applyOp db (.requestIntro a mid msg) now = db) ∧
    (∀ m : MatchRow, (∀ t, m.intro_requested_at = some t → t + oneWeek < now) →
      countRecentIntros { db with matchRows := m :: db.matchRows } a now =
        countRecentIntros db a now) := by
  refine ⟨?_, ?_, ?_⟩
  · intro hba hfa hex hrate
    have herr : sendInviteToProfile db a b msg now = .error .rateLimited := by
      unfold sendInviteToProfile
      rw [if_neg (by simp [hba]), if_neg (by simp [hfa])]
      cases hpair : findMatchPair db a b with
      | none => exact inviteCore_rateLimited db a b msg now none hrate
      | some em =>
          obtain ⟨h1, h2⟩ := hex em hpair
          simp only [h1, h2, Option.isSome_none, Bool.false_eq_true, if_false]
          exact inviteCore_rateLimited db a b msg now (some em) hrate
    exact ⟨herr, by simp [applyOp, herr]⟩
  · intro m hm hown h1 h2 hrate
    have herr : requestIntroduction db a mid msg now = .error .rateLimited := by
      unfold requestIntroduction
      rw [hm]
      simp [hown, h1, h2, hrate]
    exact ⟨herr, by simp [applyOp, herr]⟩
  · intro m hold
    have hfalse : isRecentIntro a now m = false := by
      unfold isRecentIntro
      cases hia : m.intro_requested_at with
      | none => simp
      | some t =>
          have := hold t hia
          have hlt : ¬ (now - oneWeek ≤ t) := by omega
          simp [hlt]
    unfold countRecentIntros
    simp [List.filter_cons, hfalse]

/-- A (1, 50+i) match row whose intro was requested at time 90. -/
def introSpamRow (i : Nat) : MatchRow :=
  ⟨100 + i, 1, 50 + i, 0, "intro_requested", some 90, none, 90, 90⟩

/-- A saved (1,2) row with no intro activity, id 99. -/
def rowSaved99 : MatchRow := ⟨99, 1, 2, 0, "saved", none, none, 1, 1⟩

/-- State where user 1 already has 20 intro-counted rows in the window. -/
def dbIntroSpam : DB :=
  ⟨[userA, userB], rowSaved99 :: (List.range 20).map introSpamRow, [], 200, 300⟩

/-- A stale intro row far older than one week at `now = 1000000`. -/
def oldIntroRow : MatchRow :=
  ⟨300, 1, 70, 0, "intro_requested", some 2, none, 2, 2⟩

/-- C5 witness: at 20 recent intros the 21st invite and the 21st intro
request both fail RateLimited leaving the state intact, and prepending a
stale intro row does not change the count. -/
theorem c5_intro_rate_limit_witness :
    (sendInviteToProfile dbIntroSpam 1 2 "hi" 100 = .error .rateLimited ∧
      applyOp dbIntroSpam (.invite 1 2 "hi") 100 = dbIntroSpam) ∧
    (requestIntroduction dbIntroSpam 1 99 "hi" 100 = .error .rateLimited ∧
      applyOp dbIntroSpam (.requestIntro 1 99 "hi") 100 = dbIntroSpam) ∧
    countRecentIntros
      { dbIntroSpam with matchRows := oldIntroRow :: dbIntroSpam.matchRows }
      1 1000000 =
      countRecentIntros dbIntroSpam 1 1000000 := by
  refine ⟨?_, ?_, ?_⟩
  · exact (c5_intro_rate_limit dbIntroSpam 1 2 99 "hi" 100).1 (by decide)
      (by decide)
      (by
        intro em hem
        rw [show findMatchPair dbIntroSpam 1 2 = some rowSaved99 by decide] at hem
        cases hem
        exact ⟨rfl, rfl⟩)
      (by decide)
  · exact (c5_intro_rate_limit dbIntroSpam 1 2 99 "hi" 100).2.1 rowSaved99
      (by decide) rfl rfl rfl (by decide)
  · exact (c5_intro_rate_limit dbIntroSpam 1 2 99 "hi" 1000000).2.2 oldIntroRow
      (by intro t ht; cases ht; decide)

/-- C6: a successful `request_introduction` only rewrites the actor-owned
row (to status `intro_requested` with `intro_requested_at = now`) and
appends the intro Message; every other match row — in particular a mirror
`(target, actor)` row with `intro_requested_at` set — keeps exactly its
previous value: no reciprocal auto-connect happens here. -/
theorem c6_request_introduction_no_autoconnect (db : DB) (a mid : Nat)
    (msg : String) (now : Nat) (r : IntroResult) (db2 : DB)
    (hid : idUnique db)
    (h : requestIntroduction db a mid msg now = .ok (r, db2)) :
    ∃ m, findMatchById db mid = some m ∧ m.user_id = a ∧
      m.intro_requested_at = none ∧
      findMatchById db2 mid = some (introOwnRow now m) ∧
      db2.matchRows = db.matchRows.map
        (fun x => if x.id == m.id then introOwnRow now x else x) ∧
      db2.messages = db.messages ++
        [introRequestMessage db.nextMessageId m.id a m.target_user_id msg now] ∧
      (∀ x ∈ db.matchRows, x.user_id ≠ a → x ∈ db2.matchRows) := by
  unfold requestIntroduction at h
  cases hm : findMatchById db mid with
  | none => rw [hm] at h; cases h
  | some m =>
      rw [hm] at h
      by_cases hown : (m.user_id != a) = true
      · simp [hown] at h
      · have hua : m.user_id = a := by
          simpa using hown
        by_cases hreq : m.intro_requested_at.isSome = true
        · simp [hown, hreq] at h
        · have hreqn : m.intro_requested_at = none :=
            Option.not_isSome_iff_eq_none.mp (by simpa using hreq)
          by_cases hacc : m.intro_accepted_at.isSome = true
          · simp [hown, hreq, hacc] at h
          · by_cases hrate : 20 ≤ countRecentIntros db a now
            · simp [hown, hreq, hacc, hrate] at h
            · simp only [hown, hreq, hacc, hrate, if_false, if_neg,
                Bool.false_eq_true] at h
              have hdb2 : db2 =
                  addMessage (updateMatch db m.id (introOwnRow now))
                    (introRequestMessage db.nextMessageId m.id a
                      m.target_user_id msg now) := by
                cases h
                rfl
              have hmid : (m.id == mid) = true := by
                simpa using List.find?_some hm
              have hmideq : m.id = mid := by simpa using hmid
              have hrows : db2.matchRows = db.matchRows.map
                  (fun x => if x.id == m.id then introOwnRow now x else x) := by
                rw [hdb2]
                rfl
              refine ⟨m, rfl, hua, hreqn, ?_, hrows, ?_, ?_⟩
              · unfold findMatchById
                rw [hrows]
                rw [find?_map_invariant (p := fun x => x.id == mid)
                    (g := fun x => if x.id == m.id then introOwnRow now x else x)
                    (by
                      intro x
                      by_cases hx : (x.id == m.id) = true
                      · simp only [hx, if_true]
                        rfl
                      · simp [hx])]
                have : db.matchRows.find? (fun x => x.id == mid) = some m := hm
                rw [this]
                simp
              · rw [hdb2]
                rfl
              · intro x hx hxu
                have hmmem : m ∈ db.matchRows := List.mem_of_find?_eq_some hm
                have hxm : x ≠ m := fun hcontra => hxu (hcontra ▸ hua)
                have hids : x.id ≠ m.id := by
                  have hsym : Symmetric (fun p q : MatchRow => p.id ≠ q.id) :=
                    fun p q hpq => hpq.symm
                  exact (List.Pairwise.forall hsym hid) hx hmmem hxm
                rw [hrows]
                refine List.mem_map.mpr ⟨x, hx, ?_⟩
                rw [if_neg (by simpa using hids)]

/-- State where user 2 already requested an intro on the mirror row (2,1)
and user 1 owns a saved row (1,2). -/
def dbMirror : DB := ⟨[userA, userB], [introBA, rowSaved99], [], 200, 300⟩

/-- Committed state of `request_introduction(1, 99, "m")` at time 50 from
`dbMirror`: only row 99 changed; the mirror row 10 is untouched. -/
def dbMirrorAfter : DB :=
  ⟨[userA, userB],
   [introBA, ⟨99, 1, 2, 0, "intro_requested", some 50, none, 1, 50⟩],
   [introRequestMessage 300 99 1 2 "m" 50], 200, 301⟩

/-- C6 witness: with the mirror intro row present, the successful intro
request rewrites only the actor's row and leaves the mirror row exactly as
it was. -/
theorem c6_request_introduction_no_autoconnect_witness :
    ∃ m, findMatchById dbMirror 99 = some m ∧ m.user_id = 1 ∧
      m.intro_requested_at = none ∧
      findMatchById dbMirrorAfter 99 = some (introOwnRow 50 m) ∧
      dbMirrorAfter.matchRows = dbMirror.matchRows.map
        (fun x => if x.id == m.id then introOwnRow 50 x else x) ∧
      dbMirrorAfter.messages = dbMirror.messages ++
        [introRequestMessage dbMirror.nextMessageId m.id 1 m.target_user_id
          "m" 50] ∧
      (∀ x ∈ dbMirror.matchRows, x.user_id ≠ 1 → x ∈ dbMirrorAfter.matchRows) :=
  c6_request_introduction_no_autoconnect dbMirror 1 99 "m" 50
    ⟨99, some 50⟩ dbMirrorAfter (by decide) (by decide)

/-- `addOptionalResponse` only touches the messages table. -/
theorem addOptionalResponse_matchRows (db : DB) (matchId actor recipient : Nat)
    (respMsg : Option String) (now : Nat) :
    (addOptionalResponse db matchId actor recipient respMsg now).matchRows =
      db.matchRows := by
  cases respMsg <;> rfl

/-- C7 amended: `respond_to_introduction` succeeds exactly under
actor == target_user_id, `intro_requested_at` set, `intro_accepted_at`
unset — the `status` column is not consulted, so after a decline the
recipient can respond again from status `dismissed`.  On accept the row
becomes `connected` with `intro_accepted_at = now`; on decline it becomes
`dismissed` with `intro_accepted_at` still unset. -/
theorem c7_respond_guard_amended (db : DB) (a mid : Nat) (acc : Bool)
    (rmsg : Option String) (now : Nat) (r : RespondResult) (db2 : DB)
    (h : respondToIntroduction db a mid acc rmsg now = .ok (r, db2)) :
    ∃ m, findMatchById db mid = some m ∧ m.target_user_id = a ∧
      m.intro_requested_at.isSome = true ∧ m.intro_accepted_at = none ∧
      findMatchById db2 mid =
        some (if acc then acceptRow now m else declineRow now m) ∧
      r.accepted = acc ∧
      r.status = (if acc then "connected" else "dismissed") := by
  unfold respondToIntroduction at h
  cases hm : findMatchById db mid with
  | none => rw [hm] at h; cases h
  | some m =>
      rw [hm] at h
      by_cases htgt : (m.target_user_id != a) = true
      · simp [htgt] at h
      · have hta : m.target_user_id = a := by simpa using htgt
        by_cases hreq : m.intro_requested_at.isNone = true
        · simp [htgt, hreq] at h
        · have hreqs : m.intro_requested_at.isSome = true := by
            cases ho : m.intro_requested_at with
            | none => rw [ho] at hreq; simp at hreq
            | some t => simp
          by_cases hac : m.intro_accepted_at.isSome = true
          · simp [htgt, hreq, hac] at h
          · have haccn : m.intro_accepted_at = none :=
              Option.not_isSome_iff_eq_none.mp (by simpa using hac)
            have hm' : db.matchRows.find? (fun x => x.id == mid) = some m := hm
            have hgid : ∀ (f : MatchRow → MatchRow),
                (∀ x, (f x).id = x.id) →
                (updateMatch db m.id f).matchRows.find?
                    (fun x => x.id == mid) = some (f m) := by
              intro f hf
              show (db.matchRows.map
                  (fun x => if x.id == m.id then f x else x)).find?
                    (fun x => x.id == mid) = some (f m)
              rw [find?_map_invariant (p := fun x => x.id == mid)
                  (g := fun x => if x.id == m.id then f x else x)
                  (by
                    intro x
                    by_cases hx : (x.id == m.id) = true
                    · simp only [hx, if_true, hf]
                    · simp [hx])]
              rw [hm']
              simp
            cases acc with
            | true =>
                simp only [htgt, hreq, hac, Bool.false_eq_true, if_false,
                  if_true] at h
                have hdb2 : db2 = addOptionalResponse
                    (updateMatch db m.id (acceptRow now)) m.id a m.user_id
                    rmsg now := by
                  cases h; rfl
                have hr : r = ⟨m.id, true, "connected"⟩ := by
                  cases h; rfl
                refine ⟨m, rfl, hta, hreqs, haccn, ?_, by simp [hr], by simp [hr]⟩
                unfold findMatchById
                rw [hdb2, addOptionalResponse_matchRows]
                simpa using hgid (acceptRow now) (fun x => rfl)
            | false =>
                simp only [htgt, hreq, hac, Bool.false_eq_true, if_false,
                  if_true] at h
                have hdb2 : db2 = addOptionalResponse
                    (updateMatch db m.id (declineRow now)) m.id a m.user_id
                    rmsg now := by
                  cases h; rfl
                have hr : r = ⟨m.id, false, "dismissed"⟩ := by
                  cases h; rfl
                refine ⟨m, rfl, hta, hreqs, haccn, ?_, by simp [hr], by simp [hr]⟩
                unfold findMatchById
                rw [hdb2, addOptionalResponse_matchRows]
                simpa using hgid (declineRow now) (fun x => rfl)

/-- C7 amended witness: the recipient's accept over the declined row 20
succeeds with the stated fields. -/
theorem c7_respond_guard_amended_witness :
    ∃ m, findMatchById dbAfterDecline 20 = some m ∧ m.target_user_id = 2 ∧
      m.intro_requested_at.isSome = true ∧ m.intro_accepted_at = none ∧
      findMatchById
        (addOptionalResponse (updateMatch dbAfterDecline 20 (acceptRow 60))
          20 2 1 none 60) 20 =
        some (if true then acceptRow 60 m else declineRow 60 m) ∧
      (true : Bool) = true ∧
      ("connected" : String) = (if true then "connected" else "dismissed") := by
  have h := c7_respond_guard_amended dbAfterDecline 2 20 true none 60
    ⟨20, true, "connected"⟩
    (addOptionalResponse (updateMatch dbAfterDecline 20 (acceptRow 60))
      20 2 1 none 60)
    (by decide)
  obtain ⟨m, h1, h2, h3, h4, h5, _, _⟩ := h
  exact ⟨m, h1, h2, h3, h4, h5, rfl, rfl⟩

/-- Mapping a function that preserves both pair fields preserves the
no-duplicate-pair property of the match table. -/
theorem pairUnique_map_rows (db : DB) (g : MatchRow → MatchRow)
    (hgu : ∀ x, (g x).user_id = x.user_id)
    (hgt : ∀ x, (g x).target_user_id = x.target_user_id)
    (h : pairUnique db) :
    (db.matchRows.map g).Pairwise (fun m1 m2 => ¬ samePair m1 m2) := by
  rw [List.pairwise_map]
  refine h.imp ?_
  intro m1 m2 hns hsp
  apply hns
  obtain ⟨hu, ht⟩ := hsp
  rw [hgu m1, hgu m2] at hu
  rw [hgt m1, hgt m2] at ht
  exact ⟨hu, ht⟩

/-- Appending a row whose pair clashes with no existing row preserves the
no-duplicate-pair property. -/
theorem pairUnique_append_row (db : DB) (m : MatchRow)
    (h : pairUnique db)
    (hnew : ∀ x ∈ db.matchRows, ¬ samePair x m) :
    (db.matchRows ++ [m]).Pairwise (fun m1 m2 => ¬ samePair m1 m2) := by
  rw [List.pairwise_append]
  refine ⟨h, by simp, ?_⟩
  intro x hx y hy
  simp only [List.mem_singleton] at hy
  rw [hy]
  exact hnew x hx

/-- The in-place row mutations of the handlers never touch the pair
columns, so `updateMatch` preserves pair uniqueness. -/
theorem pairUnique_updateMatch (db : DB) (mid : Nat) (f : MatchRow → MatchRow)
    (hfu : ∀ x, (f x).user_id = x.user_id)
    (hft : ∀ x, (f x).target_user_id = x.target_user_id)
    (h : pairUnique db) : pairUnique (updateMatch db mid f) := by
  show (db.matchRows.map fun x => if x.id == mid then f x else x).Pairwise _
  refine pairUnique_map_rows db _ ?_ ?_ h
  · intro x
    by_cases hx : (x.id == mid) = true <;> simp [hx, hfu]
  · intro x
    by_cases hx : (x.id == mid) = true <;> simp [hx, hft]

/-- A row inserted only when its pair was absent preserves pair
uniqueness. -/
theorem pairUnique_addMatch (db : DB) (m : MatchRow)
    (h : pairUnique db) (hnew : ∀ x ∈ db.matchRows, ¬ samePair x m) :
    pairUnique (addMatch db m) := by
  show (db.matchRows ++ [m]).Pairwise _
  exact pairUnique_append_row db m h hnew

/-- Pair lookup after an in-place mutation that keeps the pair columns. -/
theorem findMatchPair_updateMatch (db : DB) (mid : Nat)
    (f : MatchRow → MatchRow)
    (hfu : ∀ x, (f x).user_id = x.user_id)
    (hft : ∀ x, (f x).target_user_id = x.target_user_id)
    (a b : Nat) :
    findMatchPair (updateMatch db mid f) a b =
      (findMatchPair db a b).map (fun x => if x.id == mid then f x else x) := by
  show (db.matchRows.map fun x => if x.id == mid then f x else x).find? _ = _
  exact find?_map_invariant
    (by
      intro x
      by_cases hx : (x.id == mid) = true <;> simp [hx, hfu, hft]) _

/-- Pair lookup after appending a row, when the pair was absent before. -/
theorem findMatchPair_addMatch_none (db : DB) (m : MatchRow) (a b : Nat)
    (h : findMatchPair db a b = none) :
    findMatchPair (addMatch db m) a b =
      if (m.user_id == a && m.target_user_id == b) = true then some m
      else none := by
  show (db.matchRows ++ [m]).find? _ = _
  rw [List.find?_append]
  have h' : db.matchRows.find?
      (fun x => x.user_id == a && x.target_user_id == b) = none := h
  rw [h']
  simp only [Option.none_or]
  cases hb : m.user_id == a && m.target_user_id == b with
  | true => simp [List.find?, hb]
  | false => simp [List.find?, hb]

/-- What a successful `inviteCore` guarantees, given that `existing` is the
actual pair-lookup result: users untouched, the actor's pair row ends with
`intro_requested_at = now`, an existing row is upgraded in place (no growth
of the match table), and pair uniqueness is preserved. -/
theorem inviteCore_ok_spec {db : DB} {a b : Nat} {msg : String} {now : Nat}
    {existing : Option MatchRow} {r : InviteResult} {db2 : DB}
    (hex : findMatchPair db a b = existing)
    (h : inviteCore db a b msg now existing = .ok (r, db2)) :
    db2.users = db.users ∧
    (∃ em', findMatchPair db2 a b = some em' ∧
      em'.intro_requested_at = some now) ∧
    (existing.isSome = true → db2.matchRows.length = db.matchRows.length) ∧
    (pairUnique db → pairUnique db2) := by
  unfold inviteCore at h
  by_cases hrate : 20 ≤ countRecentIntros db a now
  · rw [if_pos hrate] at h; cases h
  · rw [if_neg hrate] at h
    cases hrm : db.matchRows.find? (fun m =>
        m.user_id == b && m.target_user_id == a &&
          m.intro_requested_at.isSome) with
    | some rm =>
        rw [hrm] at h
        cases existing with
        | some em =>
            have hdb2 : db2 = updateMatch (updateMatch db em.id
                (connectOwnRow now)) rm.id (connectMirrorRow now) := by
              cases h; rfl
            subst hdb2
            refine ⟨rfl, ?_, ?_, ?_⟩
            · rw [findMatchPair_updateMatch _ rm.id (connectMirrorRow now)
                  (fun x => rfl) (fun x => rfl) a b,
                findMatchPair_updateMatch db em.id (connectOwnRow now)
                  (fun x => rfl) (fun x => rfl) a b, hex]
              refine ⟨_, rfl, ?_⟩
              by_cases h2 : (em.id == em.id) = true
              · simp only [h2, if_true]
                by_cases h3 : ((connectOwnRow now em).id == rm.id) = true
                · simp only [h3, if_true]
                  rfl
                · simp only [h3, if_false, Bool.false_eq_true]
                  rfl
              · simp at h2
            · intro _
              simp [updateMatch]
            · intro hu
              exact pairUnique_updateMatch _ rm.id _ (fun x => rfl)
                (fun x => rfl)
                (pairUnique_updateMatch db em.id _ (fun x => rfl)
                  (fun x => rfl) hu)
        | none =>
            have hdb2 : db2 = addMessage
                (updateMatch (addMatch db (newConnectedRow db.nextMatchId a b now))
                  rm.id (connectMirrorRow now))
                (introRequestMessage db.nextMessageId db.nextMatchId a b
                  msg now) := by
              cases h; rfl
            subst hdb2
            have hnew : ∀ x ∈ db.matchRows,
                ¬ samePair x (newConnectedRow db.nextMatchId a b now) := by
              intro x hx hsp
              obtain ⟨h1, h2⟩ := hsp
              have hex2 : db.matchRows.find?
                  (fun x => x.user_id == a && x.target_user_id == b) = none := hex
              have hnp := List.find?_eq_none.mp hex2 x hx
              apply hnp
              have h1' : x.user_id = a := h1
              have h2' : x.target_user_id = b := h2
              simp [h1', h2']
            refine ⟨rfl, ?_, ?_, ?_⟩
            · show ∃ em', findMatchPair
                  (updateMatch (addMatch db (newConnectedRow db.nextMatchId a b now))
                    rm.id (connectMirrorRow now)) a b = some em' ∧
                  em'.intro_requested_at = some now
              rw [findMatchPair_updateMatch _ rm.id (connectMirrorRow now)
                  (fun x => rfl) (fun x => rfl) a b,
                findMatchPair_addMatch_none db _ a b hex,
                if_pos (by simp [newConnectedRow])]
              refine ⟨_, rfl, ?_⟩
              by_cases h3 : ((newConnectedRow db.nextMatchId a b now).id == rm.id) = true
              · simp only [h3, if_true]
                rfl
              · simp only [h3, if_false, Bool.false_eq_true]
                rfl
            · intro hs
              simp at hs
            · intro hu
              show pairUnique (updateMatch
                (addMatch db (newConnectedRow db.nextMatchId a b now)) rm.id
                (connectMirrorRow now))
              exact pairUnique_updateMatch _ _ _ (fun x => rfl) (fun x => rfl)
                (pairUnique_addMatch db _ hu hnew)
    | none =>
        rw [hrm] at h
        cases existing with
        | some em =>
            have hdb2 : db2 = updateMatch db em.id (introOwnRow now) := by
              cases h; rfl
            subst hdb2
            refine ⟨rfl, ?_, ?_, ?_⟩
            · rw [findMatchPair_updateMatch db em.id (introOwnRow now)
                  (fun x => rfl) (fun x => rfl) a b, hex]
              refine ⟨_, rfl, ?_⟩
              by_cases h2 : (em.id == em.id) = true
              · simp only [h2, if_true]
                rfl
              · simp at h2
            · intro _
              simp [updateMatch]
            · intro hu
              exact pairUnique_updateMatch db em.id _ (fun x => rfl)
                (fun x => rfl) hu
        | none =>
            have hdb2 : db2 = addMessage
                (addMatch db (newIntroRow db.nextMatchId a b now))
                (introRequestMessage db.nextMessageId db.nextMatchId a b
                  msg now) := by
              cases h; rfl
            subst hdb2
            have hnew : ∀ x ∈ db.matchRows,
                ¬ samePair x (newIntroRow db.nextMatchId a b now) := by
              intro x hx hsp
              obtain ⟨h1, h2⟩ := hsp
              have hex2 : db.matchRows.find?
                  (fun x => x.user_id == a && x.target_user_id == b) = none := hex
              have hnp := List.find?_eq_none.mp hex2 x hx
              apply hnp
              have h1' : x.user_id = a := h1
              have h2' : x.target_user_id = b := h2
              simp [h1', h2']
            refine ⟨rfl, ?_, ?_, ?_⟩
            · show ∃ em', findMatchPair
                  (addMatch db (newIntroRow db.nextMatchId a b now)) a b =
                    some em' ∧ em'.intro_requested_at = some now
              rw [findMatchPair_addMatch_none db _ a b hex,
                if_pos (by simp [newIntroRow])]
              exact ⟨_, rfl, rfl⟩
            · intro hs
              simp at hs
            · intro hu
              show pairUnique (addMatch db (newIntroRow db.nextMatchId a b now))
              exact pairUnique_addMatch db _ hu hnew

/-- What a successful `send_invite_to_profile` guarantees: the guards
passed, users are untouched, the actor's pair row ends with
`intro_requested_at = now`, an existing pair row is upgraded in place, and
pair uniqueness is preserved. -/
theorem invite_ok_spec {db : DB} {a b : Nat} {msg : String} {now : Nat}
    {r : InviteResult} {db2 : DB}
    (h : sendInviteToProfile db a b msg now = .ok (r, db2)) :
    (b == a) = false ∧
    (findActiveUser db b).isNone = false ∧
    db2.users = db.users ∧
    (∃ em', findMatchPair db2 a b = some em' ∧
      em'.intro_requested_at = some now) ∧
    ((findMatchPair db a b).isSome = true →
      db2.matchRows.length = db.matchRows.length) ∧
    (pairUnique db → pairUnique db2) := by
  unfold sendInviteToProfile at h
  by_cases hba : (b == a) = true
  · rw [if_pos hba] at h; cases h
  · rw [if_neg hba] at h
    by_cases hfa : (findActiveUser db b).isNone = true
    · rw [if_pos hfa] at h; cases h
    · rw [if_neg hfa] at h
      have hba' : (b == a) = false := by simpa using hba
      have hfa' : (findActiveUser db b).isNone = false := by
        cases hob : (findActiveUser db b).isNone with
        | false => rfl
        | true => exact absurd hob hfa
      cases hpair : findMatchPair db a b with
      | some em =>
          rw [hpair] at h
          by_cases h1 : em.intro_requested_at.isSome = true
          · simp [h1] at h
          · by_cases h2 : em.intro_accepted_at.isSome = true
            · simp [h1, h2] at h
            · simp only [h1, h2, Bool.false_eq_true, if_false, if_neg] at h
              obtain ⟨hu, hfind, hlen, hpu⟩ := inviteCore_ok_spec hpair h
              exact ⟨hba', hfa', hu, hfind, fun _ => hlen rfl, hpu⟩
      | none =>
          rw [hpair] at h
          have h' : inviteCore db a b msg now none = .ok (r, db2) := h
          obtain ⟨hu, hfind, hlen, hpu⟩ := inviteCore_ok_spec hpair h'
          refine ⟨hba', hfa', hu, hfind, ?_, hpu⟩
          intro hs
          simp at hs

/-- After a successful invite, repeating the same invite fails
AlreadyRequested (the actor's row now carries `intro_requested_at`). -/
theorem invite_twice_fails {db : DB} {a b : Nat} {msg msg2 : String}
    {now now2 : Nat} {r : InviteResult} {db2 : DB}
    (h : sendInviteToProfile db a b msg now = .ok (r, db2)) :
    sendInviteToProfile db2 a b msg2 now2 = .error .alreadyRequested := by
  obtain ⟨hba, hfa, husers, ⟨em', hpair2, hreq'⟩, _, _⟩ := invite_ok_spec h
  unfold sendInviteToProfile
  rw [if_neg (by simp [hba])]
  have hfa2 : findActiveUser db2 b = findActiveUser db b := by
    unfold findActiveUser
    rw [husers]
  rw [if_neg (by rw [hfa2, hfa]; simp), hpair2]
  simp [hreq']

/-- `save_profile` / `skip_profile` preserve pair uniqueness: an existing
pair row is overwritten in place, a fresh row is only added when its pair
was absent. -/
theorem saveOrSkip_ok_pairUnique {db : DB} {a b : Nat} {st : String}
    {now : Nat} {mid : Nat} {db2 : DB}
    (h : saveOrSkipProfile db a b st now = .ok (mid, db2))
    (hu : pairUnique db) : pairUnique db2 := by
  unfold saveOrSkipProfile at h
  by_cases h1 : (b == a) = true
  · rw [if_pos h1] at h; cases h
  · rw [if_neg h1] at h
    by_cases h2 : (findActiveUser db b).isNone = true
    · rw [if_pos h2] at h; cases h
    · rw [if_neg h2] at h
      cases hpair : findMatchPair db a b with
      | some em =>
          rw [hpair] at h
          have hdb2 : db2 = updateMatch db em.id (setStatusRow st now) := by
            cases h; rfl
          subst hdb2
          exact pairUnique_updateMatch db em.id _ (fun x => rfl)
            (fun x => rfl) hu
      | none =>
          rw [hpair] at h
          have hdb2 : db2 = addMatch db (newSavedRow db.nextMatchId a b now st) := by
            cases h; rfl
          subst hdb2
          refine pairUnique_addMatch db _ hu ?_
          intro x hx hsp
          obtain ⟨hx1, hx2⟩ := hsp
          have hpair2 : db.matchRows.find?
              (fun x => x.user_id == a && x.target_user_id == b) = none := hpair
          refine List.find?_eq_none.mp hpair2 x hx ?_
          have hx1' : x.user_id = a := hx1
          have hx2' : x.target_user_id = b := hx2
          simp [hx1', hx2']

/-- `request_introduction` rewrites one row in place, preserving pair
uniqueness. -/
theorem requestIntroduction_ok_pairUnique {db : DB} {a mid : Nat}
    {msg : String} {now : Nat} {r : IntroResult} {db2 : DB}
    (h : requestIntroduction db a mid msg now = .ok (r, db2))
    (hu : pairUnique db) : pairUnique db2 := by
  unfold requestIntroduction at h
  cases hm : findMatchById db mid with
  | none => rw [hm] at h; cases h
  | some m =>
      rw [hm] at h
      by_cases h1 : (m.user_id != a) = true
      · simp [h1] at h
      · by_cases h2 : m.intro_requested_at.isSome = true
        · simp [h1, h2] at h
        · by_cases h3 : m.intro_accepted_at.isSome = true
          · simp [h1, h2, h3] at h
          · by_cases h4 : 20 ≤ countRecentIntros db a now
            · simp [h1, h2, h3, h4] at h
            · simp only [h1, h2, h3, h4, Bool.false_eq_true, if_false,
                if_neg] at h
              have hdb2 : db2 = addMessage
                  (updateMatch db m.id (introOwnRow now))
                  (introRequestMessage db.nextMessageId m.id a
                    m.target_user_id msg now) := by
                cases h; rfl
              subst hdb2
              exact pairUnique_updateMatch db m.id _ (fun x => rfl)
                (fun x => rfl) hu

/-- `respond_to_introduction` rewrites one row in place, preserving pair
uniqueness. -/
theorem respond_ok_pairUnique {db : DB} {a mid : Nat} {acc : Bool}
    {rmsg : Option String} {now : Nat} {r : RespondResult} {db2 : DB}
    (h : respondToIntroduction db a mid acc rmsg now = .ok (r, db2))
    (hu : pairUnique db) : pairUnique db2 := by
  unfold respondToIntroduction at h
  cases hm : findMatchById db mid with
  | none => rw [hm] at h; cases h
  | some m =>
      rw [hm] at h
      by_cases h1 : (m.target_user_id != a) = true
      · simp [h1] at h
      · by_cases h2 : m.intro_requested_at.isNone = true
        · simp [h1, h2] at h
        · by_cases h3 : m.intro_accepted_at.isSome = true
          · simp [h1, h2, h3] at h
          · cases acc with
            | true =>
                simp only [h1, h2, h3, Bool.false_eq_true, if_false, if_true,
                  if_neg] at h
                have hdb2 : db2 = addOptionalResponse
                    (updateMatch db m.id (acceptRow now)) m.id a m.user_id
                    rmsg now := by
                  cases h; rfl
                subst hdb2
                show (addOptionalResponse (updateMatch db m.id (acceptRow now))
                    m.id a m.user_id rmsg now).matchRows.Pairwise _
                rw [addOptionalResponse_matchRows]
                exact pairUnique_updateMatch db m.id _ (fun x => rfl)
                  (fun x => rfl) hu
            | false =>
                simp only [h1, h2, h3, Bool.false_eq_true, if_false, if_true,
                  if_neg] at h
                have hdb2 : db2 = addOptionalResponse
                    (updateMatch db m.id (declineRow now)) m.id a m.user_id
                    rmsg now := by
                  cases h; rfl
                subst hdb2
                show (addOptionalResponse (updateMatch db m.id (declineRow now))
                    m.id a m.user_id rmsg now).matchRows.Pairwise _
                rw [addOptionalResponse_matchRows]
                exact pairUnique_updateMatch db m.id _ (fun x => rfl)
                  (fun x => rfl) hu

/-- `update_match_status` rewrites one row in place, preserving pair
uniqueness. -/
theorem updateMatchStatus_ok_pairUnique {db : DB} {a mid : Nat} {s : String}
    {now : Nat} {r : MatchRow} {db2 : DB}
    (h : updateMatchStatus db a mid s now = .ok (r, db2))
    (hu : pairUnique db) : pairUnique db2 := by
  unfold updateMatchStatus at h
  by_cases h0 : allowedStatuses.contains s = true
  · rw [if_neg (by rw [h0]; simp)] at h
    cases hm : findMatchById db mid with
    | none => rw [hm] at h; cases h
    | some m =>
        rw [hm] at h
        by_cases h1 : (m.user_id != a && m.target_user_id != a) = true
        · simp [h1] at h
        · by_cases h2 : (m.intro_requested_at.isSome &&
              (["saved", "dismissed"].contains s)) = true
          · simp [h1] at h
            rw [if_pos (by simpa using h2)] at h
            cases h
          · simp only [h1, h2, Bool.false_eq_true, if_false, if_neg] at h
            have hdb2 : db2 = updateMatch db m.id (setStatusRow s now) := by
              cases h; rfl
            subst hdb2
            exact pairUnique_updateMatch db m.id _ (fun x => rfl)
              (fun x => rfl) hu
  · have h0f : allowedStatuses.contains s = false := by
      cases hc : allowedStatuses.contains s with
      | false => rfl
      | true => exact absurd hc h0
    rw [if_pos (by rw [h0f]; rfl)] at h
    cases h

/-- `send_message` touches the messages table and one row's `updated_at`,
preserving pair uniqueness. -/
theorem sendMessage_ok_pairUnique {db : DB} {a mid : Nat} {content : String}
    {now : Nat} {r : MessageRow} {db2 : DB}
    (h : sendMessage db a mid content now = .ok (r, db2))
    (hu : pairUnique db) : pairUnique db2 := by
  unfold sendMessage at h
  cases hm : findMatchById db mid with
  | none => rw [hm] at h; cases h
  | some m =>
      rw [hm] at h
      by_cases h1 : (m.user_id != a && m.target_user_id != a) = true
      · simp [h1] at h
      · by_cases h2 : (m.status != "connected") = true
        · simp [h1, h2] at h
        · by_cases h3 : 50 ≤ countRecentPlainMessages db a now
          · simp [h1, h2, h3] at h
          · simp only [h1, h2, h3, Bool.false_eq_true, if_false, if_neg] at h
            have hdb2 : db2 = updateMatch
                (addMessage db (plainMessage db.nextMessageId mid a
                  (if m.user_id == a then m.target_user_id else m.user_id)
                  content now))
                m.id (fun x => { x with updated_at := now }) := by
              cases h; rfl
            subst hdb2
            exact pairUnique_updateMatch _ m.id _ (fun x => rfl)
              (fun x => rfl) hu

/-- `mark_all_messages_read` touches only the messages table. -/
theorem markAllRead_ok_pairUnique {db : DB} {a mid : Nat} {now : Nat}
    {cnt : Nat} {db2 : DB}
    (h : markAllMessagesRead db a mid now = .ok (cnt, db2))
    (hu : pairUnique db) : pairUnique db2 := by
  unfold markAllMessagesRead at h
  cases hm : findMatchById db mid with
  | none => rw [hm] at h; cases h
  | some m =>
      rw [hm] at h
      by_cases h1 : (m.user_id != a && m.target_user_id != a) = true
      · simp [h1] at h
      · simp only [h1, Bool.false_eq_true, if_false, if_neg] at h
        have hdb2 : db2 = { db with messages := db.messages.map (fun ms =>
            if isUnreadFor a mid ms then
              { ms with is_read := true, read_at := some now }
            else ms) } := by
          cases h; rfl
        subst hdb2
        exact hu

/-- Every API operation preserves the one-row-per-ordered-pair invariant. -/
theorem pairUnique_applyOp (db : DB) (op : Op) (now : Nat)
    (h : pairUnique db) : pairUnique (applyOp db op now) := by
  cases op with
  | invite a b msg =>
      simp only [applyOp]
      cases hres : sendInviteToProfile db a b msg now with
      | ok p =>
          obtain ⟨r, db2⟩ := p
          exact (invite_ok_spec hres).2.2.2.2.2 h
      | error e => exact h
  | saveProfile a b =>
      simp only [applyOp]
      cases hres : saveOrSkipProfile db a b "saved" now with
      | ok p =>
          obtain ⟨mid, db2⟩ := p
          exact saveOrSkip_ok_pairUnique hres h
      | error e => exact h
  | skipProfile a b =>
      simp only [applyOp]
      cases hres : saveOrSkipProfile db a b "dismissed" now with
      | ok p =>
          obtain ⟨mid, db2⟩ := p
          exact saveOrSkip_ok_pairUnique hres h
      | error e => exact h
  | requestIntro a mid msg =>
      simp only [applyOp]
      cases hres : requestIntroduction db a mid msg now with
      | ok p =>
          obtain ⟨r, db2⟩ := p
          exact requestIntroduction_ok_pairUnique hres h
      | error e => exact h
  | respond a mid acc rmsg =>
      simp only [applyOp]
      cases hres : respondToIntroduction db a mid acc rmsg now with
      | ok p =>
          obtain ⟨r, db2⟩ := p
          exact respond_ok_pairUnique hres h
      | error e => exact h
  | setStatus a mid st =>
      simp only [applyOp]
      cases hres : updateMatchStatus db a mid st now with
      | ok p =>
          obtain ⟨r, db2⟩ := p
          exact updateMatchStatus_ok_pairUnique hres h
      | error e => exact h
  | sendMsg a mid c =>
      simp only [applyOp]
      cases hres : sendMessage db a mid c now with
      | ok p =>
          obtain ⟨r, db2⟩ := p
          exact sendMessage_ok_pairUnique hres h
      | error e => exact h
  | markAllRead a mid =>
      simp only [applyOp]
      cases hres : markAllMessagesRead db a mid now with
      | ok p =>
          obtain ⟨cnt, db2⟩ := p
          exact markAllRead_ok_pairUnique hres h
      | error e => exact h

/-- The invariant is preserved along any operation sequence. -/
theorem pairUnique_runOps (db : DB) (ops : List (Op × Nat))
    (h : pairUnique db) : pairUnique (runOps db ops) := by
  induction ops generalizing db with
  | nil => exact h
  | cons op rest ih =>
      obtain ⟨o, n⟩ := op
      exact ih (applyOp db o n) (pairUnique_applyOp db o n h)

/-- C3: starting from a state with at most one Match row per ordered pair,
any sequence of API operations keeps at most one row per ordered pair; a
second `propose/invite(a,b)` after a successful one fails AlreadyRequested
(never duplicating the row), and an invite over an existing `(a,b)` row
upgrades it in place, leaving the match-table size unchanged. -/
theorem c3_pair_uniqueness (db : DB) (ops : List (Op × Nat)) (a b : Nat)
    (msg msg2 : String) (now now2 : Nat) (hu : pairUnique db) :
    pairUnique (runOps db ops) ∧
    (∀ r db2, sendInviteToProfile db a b msg now = .ok (r, db2) →
      sendInviteToProfile db2 a b msg2 now2 = .error .alreadyRequested ∧
      ((findMatchPair db a b).isSome = true →
        db2.matchRows.length = db.matchRows.length)) := by
  refine ⟨pairUnique_runOps db ops hu, ?_⟩
  intro r db2 h
  exact ⟨invite_twice_fails h, (invite_ok_spec h).2.2.2.2.1⟩

/-- Committed state of `invite(1,2,"hi")` at time 100 over the saved row. -/
def dbSavedOnlyAfter : DB :=
  ⟨[userA, userB], [⟨11, 1, 2, 0, "intro_requested", some 100, none, 3, 100⟩],
   [], 12, 100⟩

/-- C3 witness: after the concrete invite over the saved row, uniqueness
holds, a repeat invite fails AlreadyRequested, and the table kept its
size. -/
theorem c3_pair_uniqueness_witness :
    pairUnique (runOps dbSavedOnly [(.invite 1 2 "hi", 100)]) ∧
    sendInviteToProfile dbSavedOnlyAfter 1 2 "again" 200 =
      .error .alreadyRequested ∧
    dbSavedOnlyAfter.matchRows.length = dbSavedOnly.matchRows.length := by
  obtain ⟨h1, h2⟩ := c3_pair_uniqueness dbSavedOnly
    [(.invite 1 2 "hi", 100)] 1 2 "hi" "again" 100 200 (by decide)
  obtain ⟨h3, h4⟩ := h2 ⟨11, 19, false⟩ dbSavedOnlyAfter (by decide)
  exact ⟨h1, h3, h4 (by decide)⟩
